import Mathlib

/-!
Shallow embedding of `TerminatorTest/src/main/cpp/tertest.cpp`.

C `int` values are modelled as unbounded `Int` together with the
two's-complement wraparound `wrap32` applied wherever the source performs
32-bit arithmetic.  C `double` is modelled as `ℚ` (the only operation ever
applied is multiplication by the exactly-representable constant `2.0`).
Pointers are modelled as `Option`; a null pointer is `none`.  The process
global `g_test_variable` is threaded explicitly through every embedded
function as a state component of type `Int`.  Every embedded function
returns, besides its result, the list of log lines its body emits and the
final value of the global.
-/

namespace Terminator

/-- Two's-complement wraparound into the signed 32-bit range, modelling C
`int` arithmetic. -/
def wrap32 (n : Int) : Int := (n + 2 ^ 31) % 2 ^ 32 - 2 ^ 31

/-- Load-time initial value of the process-wide global
(`int g_test_variable = 100;`). -/
def g_test_variable_init : Int := 100

/-- The constant string returned by `TestClass::static_method`. -/
def originalStaticString : String := "Original static string"

/-- The string literal passed to `test_pointer_args` by the driver. -/
def helloFromCpp : String := "Hello from C++"

/-- Banner logged at the start of `run_all_tests`. -/
def runningBanner : String := "--- Running Native Tests ---"

/-- Banner logged at the end of `run_all_tests`. -/
def finishedBanner : String := "--- Native Tests Finished ---"

/-- Informational line logged before Test 2 (a literal format string in the
source, carrying no runtime values). -/
def test2CallingMsg : String :=
  "Calling test_struct_by_pointer. Initial values: id=10, value=42.5"

/-- The record `struct TestData { int id; double value; }`. -/
structure TestData where
  id : Int
  value : ℚ
deriving DecidableEq

/-- Payload of a log line that embeds runtime values. -/
inductive Payload where
  | intVal (v : Int)
  | recordVal (id : Int) (value : ℚ)
  | strVal (s : String)
deriving DecidableEq

/-- One `__android_log_print` line, classified by its content: banners and
purely informational lines, the `TestClass` constructor line, and the
expected/actual lines of each numbered test. -/
inductive LogLine where
  | banner (s : String)
  | info (s : String)
  | ctorMsg (mValue : Int)
  | expectedLine (test : Nat) (p : Payload)
  | actualLine (test : Nat) (p : Payload)
deriving DecidableEq

/-- The five probe surfaces exported by the module. -/
inductive Surface where
  | arithmetic
  | recordMutation
  | stringOutput
  | instanceM
  | staticM
deriving DecidableEq

/-- An observable event of the driver routine: an invocation of a probe
surface, or a line arriving at the log sink. -/
inductive Event where
  | call (s : Surface)
  | log (l : LogLine)
deriving DecidableEq

/-- Embedding of `extern "C" int test_simple_function(int a, int b)`:
returns `a + b` computed in 32-bit arithmetic, emits no log line and never
touches the global. -/
def test_simple_function (a b : Int) (g : Int) : Int × List LogLine × Int :=
  (wrap32 (a + b), [], g)

/-- Embedding of `extern "C" void test_struct_by_pointer(TestData* data)`:
if the pointer is non-null, increments `id` (32-bit) and doubles `value`;
a null pointer is a silent no-op.  The result is the pointee after the
call. -/
def test_struct_by_pointer (data : Option TestData) (g : Int) :
    Option TestData × List LogLine × Int :=
  match data with
  | some d => (some { id := wrap32 (d.id + 1), value := d.value * 2 }, [], g)
  | none => (none, [], g)

/-- Embedding of
`extern "C" const char* test_pointer_args(const char* input_str, int* out_val)`:
writes `500` through `out_val` when it is non-null and returns `input_str`
unchanged.  The result pairs the returned string with the pointee of
`out_val` after the call. -/
def test_pointer_args (input_str : String) (out_val : Option Int) (g : Int) :
    (String × Option Int) × List LogLine × Int :=
  match out_val with
  | some _ => ((input_str, some 500), [], g)
  | none => ((input_str, none), [], g)

/-- The class `TestClass`, holding the single field `m_value` fixed at
construction. -/
structure TestClass where
  m_value : Int
deriving DecidableEq

/-- Embedding of the constructor `TestClass(int initial)`: stores the field
and logs one line reporting `m_value`. -/
def TestClass.create (initial : Int) (g : Int) : TestClass × List LogLine × Int :=
  ({ m_value := initial }, [LogLine.ctorMsg initial], g)

/-- Embedding of `int instance_method(int multiplier)`: returns
`m_value * multiplier` computed in 32-bit arithmetic. -/
def TestClass.instance_method (self : TestClass) (multiplier : Int) (g : Int) :
    Int × List LogLine × Int :=
  (wrap32 (self.m_value * multiplier), [], g)

/-- Embedding of `static const char* static_method()`: always returns the
constant string. -/
def TestClass.static_method (g : Int) : String × List LogLine × Int :=
  (originalStaticString, [], g)

/-- Embedding of `void run_all_tests()`: the straight-line driver.  Its
value is the full ordered list of observable events (surface invocations
interleaved with log lines, exactly as the source emits them) together with
the final value of the global. -/
def run_all_tests (g : Int) : List Event × Int :=
  let r1 := test_simple_function 5 7 g
  let simple_result := r1.1
  let data0 : TestData := { id := 10, value := 42.5 }
  let r2 := test_struct_by_pointer (some data0) r1.2.2
  let data1 := r2.1.getD data0
  let r3 := test_pointer_args helloFromCpp (some 0) r2.2.2
  let out_val := r3.1.2.getD 0
  let rc := TestClass.create 42 r3.2.2
  let r4 := TestClass.instance_method rc.1 10 rc.2.2
  let instance_result := r4.1
  let r5 := TestClass.static_method r4.2.2
  let static_result := r5.1
  ([Event.log (LogLine.banner runningBanner),
    Event.log (LogLine.expectedLine 1 (Payload.intVal 12)),
    Event.call Surface.arithmetic] ++ r1.2.1.map Event.log ++
   [Event.log (LogLine.actualLine 1 (Payload.intVal simple_result)),
    Event.log (LogLine.info test2CallingMsg),
    Event.log (LogLine.expectedLine 2 (Payload.recordVal 11 85)),
    Event.call Surface.recordMutation] ++ r2.2.1.map Event.log ++
   [Event.log (LogLine.actualLine 2 (Payload.recordVal data1.id data1.value)),
    Event.log (LogLine.expectedLine 3 (Payload.intVal 500)),
    Event.call Surface.stringOutput] ++ r3.2.1.map Event.log ++
   [Event.log (LogLine.actualLine 3 (Payload.intVal out_val))] ++
   rc.2.1.map Event.log ++
   [Event.log (LogLine.expectedLine 4 (Payload.intVal 420)),
    Event.call Surface.instanceM] ++ r4.2.1.map Event.log ++
   [Event.log (LogLine.actualLine 4 (Payload.intVal instance_result)),
    Event.log (LogLine.expectedLine 5 (Payload.strVal originalStaticString)),
    Event.call Surface.staticM] ++ r5.2.1.map Event.log ++
   [Event.log (LogLine.actualLine 5 (Payload.strVal static_result)),
    Event.log (LogLine.banner finishedBanner)],
   r5.2.2)

/-- Projection extracting the surface of a call event. -/
def Event.callOf : Event → Option Surface
  | .call s => some s
  | _ => none

/-- Projection extracting an expected/actual log entry as a triple
`(isExpected, testNumber, payload)`. -/
def Event.pairOf : Event → Option (Bool × Nat × Payload)
  | .log (.expectedLine n p) => some (true, n, p)
  | .log (.actualLine n p) => some (false, n, p)
  | _ => none

/-- Phase of the load-time trigger of §4.3: the module is not yet loaded,
the detached test-runner thread is sleeping with `remaining` time units of
its fixed delay left, or the probe run has happened (terminal). -/
inductive Phase where
  | unloaded
  | loaded (remaining : Nat)
  | probeRun
deriving DecidableEq

/-- State of the host process as far as this module observes it: the phase
of the background unit, how many test-runner threads have been spawned, how
many times the driver routine has executed, the global variable, and the
events delivered to the log sink so far. -/
structure Sys where
  phase : Phase
  threads : Nat
  driverRuns : Nat
  g : Int
  events : List Event
deriving DecidableEq

/-- The process before the module is loaded.  `g_test_variable` holds its
load-time initial value. -/
def initSys : Sys :=
  { phase := .unloaded
    threads := 0
    driverRuns := 0
    g := g_test_variable_init
    events := [] }

/-- Embedding of `__attribute__((constructor)) void on_library_load()`:
spawns one detached test-runner thread (whose fixed delay is 3 time units)
and returns to the loader at once: nothing else of the state changes and no
driver run happens here. -/
def on_library_load (s : Sys) : Sys :=
  { s with phase := .loaded 3, threads := s.threads + 1 }

/-- One time unit of the background unit (`test_runner_thread_func`): while
the delay remains it sleeps; when the delay is exhausted it executes the
driver routine once and terminates; `probeRun` is terminal and `unloaded`
is inert. -/
def tick (s : Sys) : Sys :=
  match s.phase with
  | .unloaded => s
  | .loaded (n + 1) => { s with phase := .loaded n }
  | .loaded 0 =>
      let r := run_all_tests s.g
      { s with
        phase := .probeRun
        driverRuns := s.driverRuns + 1
        g := r.2
        events := s.events ++ r.1 }
  | .probeRun => s

/-- One call to an embedded operation of the module: a probe surface, the
`TestClass` constructor, or the driver routine, with its arguments. -/
inductive Op where
  | simpleOp (a b : Int)
  | structOp (d : Option TestData)
  | pargsOp (s : String) (o : Option Int)
  | createOp (initial : Int)
  | instOp (c : TestClass) (m : Int)
  | staticOp
  | driverOp

/-- The effect of one operation on the global `g_test_variable`. -/
def opG : Op → Int → Int
  | .simpleOp a b, g => (test_simple_function a b g).2.2
  | .structOp d, g => (test_struct_by_pointer d g).2.2
  | .pargsOp s o, g => (test_pointer_args s o g).2.2
  | .createOp i, g => (TestClass.create i g).2.2
  | .instOp c m, g => (TestClass.instance_method c m g).2.2
  | .staticOp, g => (TestClass.static_method g).2.2
  | .driverOp, g => (run_all_tests g).2

theorem wrap32_emod (n : Int) : wrap32 n % 2 ^ 32 = n % 2 ^ 32 := by
  unfold wrap32; omega

theorem wrap32_lower (n : Int) : -(2 ^ 31) ≤ wrap32 n := by
  unfold wrap32; omega

theorem wrap32_upper (n : Int) : wrap32 n < 2 ^ 31 := by
  unfold wrap32; omega

theorem wrap32_eq_self (n : Int) (h1 : -(2 ^ 31) ≤ n) (h2 : n < 2 ^ 31) :
    wrap32 n = n := by
  unfold wrap32; omega

/-- C2 (counterexample): as stated over all mathematical integers the claim
fails: on the concrete input `a = 2147483647`, `b = 1` the arithmetic
surface does not return the mathematical sum. -/
theorem test_simple_function_overflow_cex :
    (test_simple_function 2147483647 1 0).1 ≠ 2147483647 + 1 := by decide

/-- C2 (amended): whenever the mathematical sum `a + b` lies in the signed
32-bit range, `test_simple_function` returns exactly `a + b`, emits no log
line and leaves the global untouched. -/
theorem test_simple_function_sum_in_range (a b g : Int)
    (h1 : -(2 ^ 31) ≤ a + b) (h2 : a + b < 2 ^ 31) :
    test_simple_function a b g = (a + b, [], g) := by
  unfold test_simple_function
  rw [wrap32_eq_self (a + b) h1 h2]

theorem test_simple_function_sum_in_range_witness :
    (-(2 ^ 31) : Int) ≤ 5 + 7 ∧ ((5 + 7 : Int) < 2 ^ 31) ∧
    test_simple_function 5 7 100 = (5 + 7, [], 100) :=
  ⟨by decide, by decide,
    test_simple_function_sum_in_range 5 7 100 (by decide) (by decide)⟩

/-- C3 (counterexample): as stated over all mathematical integers the claim
fails: a record whose identifier is `2147483647` does not end up with
identifier `2147483647 + 1` after the call. -/
theorem test_struct_by_pointer_overflow_cex :
    ((test_struct_by_pointer (some { id := 2147483647, value := 0 }) 0).1.getD
        { id := 0, value := 0 }).id ≠ 2147483647 + 1 := by decide

/-- C3 (amended): for every record whose incremented identifier still lies
in the signed 32-bit range, a present reference ends up with identifier
`i + 1` and measurement `v * 2`, with no log line and no change to the
global; an absent (null) reference is a complete no-op. -/
theorem test_struct_by_pointer_spec :
    (∀ (i : Int) (v : ℚ) (g : Int), -(2 ^ 31) ≤ i + 1 → i + 1 < 2 ^ 31 →
      test_struct_by_pointer (some { id := i, value := v }) g =
        (some { id := i + 1, value := v * 2 }, [], g)) ∧
    (∀ g : Int, test_struct_by_pointer none g = (none, [], g)) := by
  constructor
  · intro i v g h1 h2
    simp only [test_struct_by_pointer]
    rw [wrap32_eq_self (i + 1) h1 h2]
  · intro g; rfl

theorem test_struct_by_pointer_spec_witness :
    test_struct_by_pointer (some { id := 10, value := 42.5 }) 100 =
      (some { id := 11, value := 85 }, [], 100) ∧
    test_struct_by_pointer none 100 = (none, [], 100) := by
  constructor
  · rw [test_struct_by_pointer_spec.1 10 42.5 100 (by decide) (by decide)]
    norm_num
  · exact test_struct_by_pointer_spec.2 100

/-- C4: the echo surface returns its input string unchanged; when the
output parameter is present it holds the fixed constant `500` after the
call; and the call emits no log line and leaves the global untouched. -/
theorem test_pointer_args_spec (s : String) (o : Option Int) (g : Int) :
    (test_pointer_args s o g).1.1 = s ∧
    (∀ v : Int, o = some v → (test_pointer_args s o g).1.2 = some 500) ∧
    (test_pointer_args s o g).2 = ([], g) := by
  cases o <;> simp [test_pointer_args]

theorem test_pointer_args_spec_witness :
    (test_pointer_args helloFromCpp (some 0) 100).1.1 = helloFromCpp ∧
    (test_pointer_args helloFromCpp (some 0) 100).1.2 = some 500 :=
  ⟨(test_pointer_args_spec helloFromCpp (some 0) 100).1,
    (test_pointer_args_spec helloFromCpp (some 0) 100).2.1 0 rfl⟩

/-- C5 (counterexample): as stated over all mathematical integers the claim
fails: the object constructed with `42` does not return the mathematical
product `42 * 2147483647` for that multiplier. -/
theorem instance_method_overflow_cex :
    (TestClass.instance_method ((TestClass.create 42 0).1) 2147483647 0).1 ≠
      42 * 2147483647 := by decide

/-- C5 (amended): whenever the mathematical product of the stored field and
the multiplier lies in the signed 32-bit range, the instance method of an
object constructed with `f` returns exactly `f * m`; in particular the
object constructed with `42` returns `420` for `m = 10`. -/
theorem instance_method_product_in_range (f m g gc : Int)
    (h1 : -(2 ^ 31) ≤ f * m) (h2 : f * m < 2 ^ 31) :
    (TestClass.instance_method ((TestClass.create f gc).1) m g).1 = f * m := by
  simp only [TestClass.create, TestClass.instance_method]
  exact wrap32_eq_self (f * m) h1 h2

theorem instance_method_product_in_range_witness :
    (TestClass.instance_method ((TestClass.create 42 100).1) 10 100).1 = 420 :=
  (instance_method_product_in_range 42 10 100 100 (by decide) (by decide)).trans
    (by norm_num)

/-- C6: the static method takes no arguments of its own (only the threaded
process state) and always returns the exact constant string. -/
theorem static_method_constant (g : Int) :
    TestClass.static_method g = ("Original static string", [], g) := rfl

/-- C7: no probe surface fails on any input: every surface is a total
function that emits no log line and leaves the global untouched, and an
absent (null) reference to `test_struct_by_pointer` or as the output
parameter of `test_pointer_args` is a silent no-op, not an error. -/
theorem probe_surfaces_total_null_noop :
    (∀ g : Int, test_struct_by_pointer none g = (none, [], g)) ∧
    (∀ (s : String) (g : Int), test_pointer_args s none g = ((s, none), [], g)) ∧
    (∀ (a b g : Int), (test_simple_function a b g).2 = ([], g)) ∧
    (∀ (d : Option TestData) (g : Int), (test_struct_by_pointer d g).2 = ([], g)) ∧
    (∀ (s : String) (o : Option Int) (g : Int), (test_pointer_args s o g).2 = ([], g)) ∧
    (∀ (c : TestClass) (m g : Int), (TestClass.instance_method c m g).2 = ([], g)) ∧
    (∀ g : Int, (TestClass.static_method g).2 = ([], g)) := by
  refine ⟨fun g => rfl, fun s g => rfl, fun a b g => rfl, ?_, ?_,
    fun c m g => rfl, fun g => rfl⟩
  · intro d g; cases d <;> rfl
  · intro s o g; cases o <;> rfl

/-- C1: whatever the value of the global, the driver routine invokes the
five probe surfaces exactly once each, in the fixed order arithmetic,
record mutation, string/output-parameter, instance method, static method,
and the log sink receives paired expected/actual entries whose expected
values are the literals `12`, `(11, 85.0)`, `500`, `420` and
`"Original static string"`, in that order, with the actual values agreeing
absent interception. -/
theorem run_all_tests_trace (g : Int) :
    ((run_all_tests g).1.filterMap Event.callOf) =
      [Surface.arithmetic, Surface.recordMutation, Surface.stringOutput,
       Surface.instanceM, Surface.staticM] ∧
    ((run_all_tests g).1.filterMap Event.pairOf) =
      [(true, 1, Payload.intVal 12), (false, 1, Payload.intVal 12),
       (true, 2, Payload.recordVal 11 85), (false, 2, Payload.recordVal 11 85),
       (true, 3, Payload.intVal 500), (false, 3, Payload.intVal 500),
       (true, 4, Payload.intVal 420), (false, 4, Payload.intVal 420),
       (true, 5, Payload.strVal originalStaticString),
       (false, 5, Payload.strVal originalStaticString)] := by
  constructor
  · rfl
  · simp [run_all_tests, Event.pairOf, test_simple_function, test_struct_by_pointer,
      test_pointer_args, TestClass.create, TestClass.instance_method,
      TestClass.static_method, wrap32]
    norm_num

/-- C8: loading the module spawns exactly one detached background unit and
runs no driver code itself (non-blocking); the background unit sleeps for
the fixed delay of 3 time units (the driver has not run after at most 3
ticks), then executes the driver routine exactly once (after 4 or more
ticks the run count is exactly 1, never more), reaching the terminal
`probeRun` phase from which every further tick is the identity — the
background unit is never restarted. -/
theorem load_trigger_spec :
    (on_library_load initSys).threads = 1 ∧
    (on_library_load initSys).driverRuns = 0 ∧
    (∀ k : Nat, k ≤ 3 → (tick^[k] (on_library_load initSys)).driverRuns = 0) ∧
    (∀ k : Nat, 4 ≤ k →
      (tick^[k] (on_library_load initSys)).driverRuns = 1 ∧
      (tick^[k] (on_library_load initSys)).threads = 1 ∧
      (tick^[k] (on_library_load initSys)).phase = Phase.probeRun) ∧
    (∀ s : Sys, s.phase = Phase.probeRun → tick s = s) := by
  have fix : ∀ s : Sys, s.phase = Phase.probeRun → tick s = s := by
    intro s h
    unfold tick
    split <;> simp_all
  have stay : ∀ (m : Nat) (s : Sys), s.phase = Phase.probeRun → tick^[m] s = s := by
    intro m
    induction m with
    | zero => intro s h; rfl
    | succ m ih =>
        intro s h
        rw [Function.iterate_succ_apply, fix s h]
        exact ih s h
  refine ⟨rfl, rfl, ?_, ?_, fix⟩
  · intro k hk
    interval_cases k <;> rfl
  · intro k hk
    obtain ⟨m, rfl⟩ : ∃ m, k = m + 4 := ⟨k - 4, by omega⟩
    rw [Function.iterate_add_apply, stay m _ rfl]
    exact ⟨rfl, rfl, rfl⟩

theorem load_trigger_spec_witness :
    (tick^[2] (on_library_load initSys)).driverRuns = 0 ∧
    (tick^[5] (on_library_load initSys)).driverRuns = 1 ∧
    tick { phase := Phase.probeRun, threads := 1, driverRuns := 1, g := 100, events := [] } =
      { phase := Phase.probeRun, threads := 1, driverRuns := 1, g := 100, events := [] } :=
  ⟨load_trigger_spec.2.2.1 2 (by decide),
   (load_trigger_spec.2.2.2.1 5 (by decide)).1,
   load_trigger_spec.2.2.2.2 _ rfl⟩

/-- C9: the global `g_test_variable` is dead state: no single operation of
the module (probe surface, constructor or driver routine) changes it, no
sequence of such operations changes it, and no result ever depends on it
(the driver's observable event trace is the same for every value of the
global), so after any sequence of calls it still holds its load-time
initial value. -/
theorem g_test_variable_frame :
    (∀ (op : Op) (g : Int), opG op g = g) ∧
    (∀ (ops : List Op), ops.foldl (fun h op => opG op h) g_test_variable_init =
      g_test_variable_init) ∧
    (∀ g gp : Int, (run_all_tests g).1 = (run_all_tests gp).1) := by
  have h1 : ∀ (op : Op) (g : Int), opG op g = g := by
    intro op g
    cases op with
    | simpleOp a b => rfl
    | structOp d => cases d <;> rfl
    | pargsOp s o => cases o <;> rfl
    | createOp i => rfl
    | instOp c m => rfl
    | staticOp => rfl
    | driverOp => rfl
  have h2 : ∀ (ops : List Op) (g : Int), ops.foldl (fun h op => opG op h) g = g := by
    intro ops
    induction ops with
    | nil => intro g; rfl
    | cons op ops ih =>
        intro g
        rw [List.foldl_cons, h1 op g]
        exact ih g
  exact ⟨h1, fun ops => h2 ops g_test_variable_init, fun g gp => rfl⟩

/-- C10: both arithmetic surfaces compute over fixed-width 32-bit two's
complement integers: for all integer inputs the result of
`test_simple_function` is congruent to the mathematical sum modulo `2^32`
and lies in the signed 32-bit range, likewise `instance_method` for the
product, and on overflowing inputs the results differ from the
mathematical sum and product. -/
theorem int32_wraparound_semantics :
    (∀ (a b g : Int),
      (test_simple_function a b g).1 % 2 ^ 32 = (a + b) % 2 ^ 32 ∧
      -(2 ^ 31) ≤ (test_simple_function a b g).1 ∧
      (test_simple_function a b g).1 < 2 ^ 31) ∧
    (∀ (f m g gc : Int),
      (TestClass.instance_method ((TestClass.create f gc).1) m g).1 % 2 ^ 32 =
        (f * m) % 2 ^ 32 ∧
      -(2 ^ 31) ≤ (TestClass.instance_method ((TestClass.create f gc).1) m g).1 ∧
      (TestClass.instance_method ((TestClass.create f gc).1) m g).1 < 2 ^ 31) ∧
    (test_simple_function 2147483647 1 0).1 ≠ 2147483647 + 1 ∧
    (TestClass.instance_method ((TestClass.create 42 0).1) 2147483647 0).1 ≠
      42 * 2147483647 := by
  refine ⟨fun a b g => ⟨wrap32_emod (a + b), wrap32_lower _, wrap32_upper _⟩,
    fun f m g gc => ⟨wrap32_emod (f * m), wrap32_lower _, wrap32_upper _⟩,
    by decide, by decide⟩

end Terminator
